import Mathlib

/-
Verification of the order-routing and resiliency layer of
`binance_futures_python/client.py` (BinanceFuturesClient).

The embedding models Python values crossing the parameter dictionaries as an
inductive `Value` type, parameter dictionaries as insertion-ordered association
lists, and the HTTP layer as an oracle mapping each outgoing wire call to an
outcome.  Each client method that the claims mention is translated line by
line from the source; every method returns its Python result together with
the ordered trace of wire calls it issued.
-/

namespace BinanceFutures

/-- A Python value as it appears in the client's parameter dictionaries:
strings, integers, booleans, or `None`. -/
inductive Value where
  | vStr (s : String)
  | vInt (n : Int)
  | vBool (b : Bool)
  | vNull
deriving DecidableEq, Repr

/-- A Python parameter dictionary: an insertion-ordered list of key/value
pairs (lookups take the first occurrence of a key). -/
abbrev Params := List (String × Value)

/-- Python `str.upper()` on one character (ASCII range; every string the
routing layer upper-cases — order types — is ASCII). -/
def asciiUpperChar (c : Char) : Char :=
  if 97 ≤ c.toNat ∧ c.toNat ≤ 122 then Char.ofNat (c.toNat - 32) else c

/-- Python `str.lower()` on one character (ASCII range). -/
def asciiLowerChar (c : Char) : Char :=
  if 65 ≤ c.toNat ∧ c.toNat ≤ 90 then Char.ofNat (c.toNat + 32) else c

/-- Python `s.upper()`. -/
def pyUpper (s : String) : String := String.mk (s.data.map asciiUpperChar)

/-- Python `s.lower()`. -/
def pyLower (s : String) : String := String.mk (s.data.map asciiLowerChar)

/-- Python `str(v)` on a parameter value. -/
def pyStr : Value → String
  | .vStr s => s
  | .vInt n => toString n
  | .vBool b => if b then "True" else "False"
  | .vNull => "None"

/-- Python truthiness (`bool(v)` / `if v:`) on a parameter value. -/
def pyTruthy : Value → Bool
  | .vStr s => s ≠ ""
  | .vInt n => n ≠ 0
  | .vBool b => b
  | .vNull => false

/-- First-occurrence lookup in a parameter dictionary (`params[k]` / `params.get(k)`). -/
def lookup? : Params → String → Option Value
  | [], _ => none
  | (k0, v) :: rest, k => if k0 = k then some v else lookup? rest k

/-- Python `params.get(k, d)`. -/
def getD (p : Params) (k : String) (d : Value) : Value :=
  (lookup? p k).getD d

/-- Python `k in params`. -/
def hasKey (p : Params) (k : String) : Bool :=
  (lookup? p k).isSome

/-- Python `params[k] = v`: replace the first binding of `k` in place, or
append a new binding at the end (dict insertion-order semantics). -/
def setp : Params → String → Value → Params
  | [], k, v => [(k, v)]
  | (k0, v0) :: rest, k, v =>
      if k0 = k then (k, v) :: rest else (k0, v0) :: setp rest k v

/-- Python `del params[k]` (a no-op when the key is absent, matching the
guarded `if k in params: del params[k]` uses in the source). -/
def erase : Params → String → Params
  | [], _ => []
  | (k0, v0) :: rest, k => if k0 = k then erase rest k else (k0, v0) :: erase rest k

/-- Python `params.pop(k, d)`: the popped value together with the dictionary
after removal. -/
def popD (p : Params) (k : String) (d : Value) : Value × Params :=
  (getD p k d, erase p k)

/-- Python `params.setdefault(k, v)`. -/
def setdefault (p : Params) (k : String) (v : Value) : Params :=
  if hasKey p k then p else p ++ [(k, v)]

/-- Python dict merge `{**a, **b}`: keys of `a` keep their positions with
values from `b` taking precedence, and keys only in `b` are appended. -/
def merge (a b : Params) : Params :=
  (a.map (fun kv => (kv.1, getD b kv.1 kv.2))) ++ b.filter (fun kv => ¬ hasKey a kv.1)

/-- `BinanceFuturesClient.CONDITIONAL_ORDER_TYPES`. -/
def CONDITIONAL_ORDER_TYPES : List String :=
  ["STOP_MARKET", "TAKE_PROFIT_MARKET", "STOP", "TAKE_PROFIT", "TRAILING_STOP_MARKET"]

/-- `BinanceFuturesClient.ORDER_NOT_FOUND_CODES`. -/
def ORDER_NOT_FOUND_CODES : List Int := [-2013, -2011]

/-- Client construction-time state that the routing layer reads.
`hmac_sha256_hex secret message` stands for
`hmac.new(secret, message, hashlib.sha256).hexdigest()`; it is kept as an
abstract function parameter of the model (the hash itself is a library
collaborator), so every theorem below holds for any HMAC implementation. -/
structure ClientConfig where
  api_key : Option String
  api_secret : Option String
  recv_window : Int
  auto_switch_conditional_to_algo : Bool
  attempt_algo_on_not_found : Bool
  hmac_sha256_hex : String → String → String

/-- A `BinanceFuturesAPIError`: HTTP status, the `code` field extracted from
the JSON payload (absent when the payload had none), and the message. -/
structure ApiError where
  status_code : Int
  error_code : Option Int
  msg : String
deriving DecidableEq, Repr

/-- A decoded JSON response body: a JSON object, or any other JSON value. -/
inductive JsonVal where
  | dict (p : Params)
  | other (s : String)
deriving DecidableEq, Repr

/-- What the backend does with one wire call. -/
inductive ApiOutcome where
  | success (body : JsonVal)
  | failure (e : ApiError)
deriving DecidableEq

/-- One wire call: HTTP method, path, and the exact parameters sent
(query string for GET, request body otherwise — same parameter set). -/
structure Call where
  method : String
  path : String
  params : Params
deriving DecidableEq, Repr

/-- The network, as a deterministic response oracle. -/
abbrev Oracle := Call → ApiOutcome

/-- Result of a client method: normal return, a raised
`BinanceFuturesAPIError`, or a raised `ValueError`. -/
inductive PyResult (α : Type) where
  | ok (a : α)
  | apiErr (e : ApiError)
  | valueErr (msg : String)
deriving DecidableEq

/-- `_normalize_order_type`: `str(order_type).upper()`. -/
def normalize_order_type (v : Value) : String :=
  pyUpper (pyStr v)

/-- `_is_conditional_type`. -/
def is_conditional_type (order_type : String) : Bool :=
  if order_type = "" then false
  else CONDITIONAL_ORDER_TYPES.contains (pyUpper order_type)

/-- `_is_order_not_found`: error code in `ORDER_NOT_FOUND_CODES`, or HTTP 404. -/
def is_order_not_found (e : ApiError) : Bool :=
  (match e.error_code with
   | some c => ORDER_NOT_FOUND_CODES.contains c
   | none => false) || (e.status_code == 404)

/-- `_clean_params`: drop every key whose value is `None`. -/
def clean_params (p : Params) : Params :=
  p.filter (fun kv => kv.2 ≠ Value.vNull)

/-- `_ensure_required`: `some message` when any required field is missing
(absent or `None`), listing all missing names; `none` when all are present. -/
def ensure_required (p : Params) (fields : List String) : Option String :=
  let missing := fields.filter (fun f => getD p f Value.vNull = Value.vNull)
  if missing = [] then none
  else some ("Missing required parameter(s): " ++ String.intercalate ", " missing)

/-- Python truthiness of an optional credential string (`if not self.api_key`). -/
def truthy_cred : Option String → Bool
  | some s => s ≠ ""
  | none => false

/-- `_require_credentials` composed with `_require_api_key`: the `ValueError`
message raised before any network activity, or `none` when both credentials
are configured. -/
def check_credentials (cfg : ClientConfig) : Option String :=
  if ¬ truthy_cred cfg.api_key then some "API key is required for this endpoint."
  else if ¬ truthy_cred cfg.api_secret then some "API secret is required for this endpoint."
  else none

/-- `urlencode(params, doseq=True)` over scalar values: the canonical query
string the signature is computed over (percent-escaping elided; it is
injective on the characters the claims exercise). -/
def urlencode (p : Params) : String :=
  String.intercalate "&" (p.map (fun kv => kv.1 ++ "=" ++ pyStr kv.2))

/-- `_sign_params`: inject `timestamp` (current epoch ms, `now`) and
`recvWindow` when absent, then append the HMAC-SHA256 hex digest of the
encoded query as `signature`.  The secret-presence check of the source has
already been performed by `check_credentials` on every signed path. -/
def sign_params (cfg : ClientConfig) (now : Int) (p : Params) : Params :=
  let p1 := setdefault p "timestamp" (Value.vInt now)
  let p2 := setdefault p1 "recvWindow" (Value.vInt cfg.recv_window)
  let query := urlencode p2
  let signature := cfg.hmac_sha256_hex (cfg.api_secret.getD "") query
  setp p2 "signature" (Value.vStr signature)

/-- The exact wire call `_request` issues for a signed request. -/
def signed_call (cfg : ClientConfig) (now : Int) (method path : String) (p : Params) : Call :=
  ⟨method, path, sign_params cfg now (clean_params p)⟩

/-- `_request` on its `signed=True` path (every endpoint the claims touch is
signed): clean the parameters, check credentials, sign, send, and either
return the decoded body or raise the classified API error.  Returns the
result together with the trace of wire calls made (empty when a
`ValueError` fires before the network). -/
def request (cfg : ClientConfig) (oracle : Oracle) (now : Int)
    (method path : String) (p : Params) : PyResult JsonVal × List Call :=
  match check_credentials cfg with
  | some m => (.valueErr m, [])
  | none =>
      let call := signed_call cfg now method path p
      match oracle call with
      | .success j => (.ok j, [call])
      | .failure e => (.apiErr e, [call])

/-- `_prepare_algo_order_params` (the value-level transform): when
`closePosition` stringifies, lower-cased, to `"true"`, delete `quantity`
and `reduceOnly`; otherwise leave the mapping as is. -/
def prepare_algo_order_params (p : Params) : Params :=
  let close_position := pyLower (pyStr (getD p "closePosition" (Value.vStr "")))
  if close_position = "true" then erase (erase p "quantity") "reduceOnly" else p

/-- The Python function performs the deletions with `del params[...]` and
returns its argument, so the argument object observed by the caller after
the call is the same mutated mapping the function returns. -/
def prepare_algo_order_params_arg_after (p : Params) : Params :=
  prepare_algo_order_params p

/- ------------------------------------------------------------------ -/
/- Trading operations (from `client.py`).                              -/
/- ------------------------------------------------------------------ -/

/-- `new_algo_order`: ensure required fields, apply the guardrails, normalize
the type, force `algoType="CONDITIONAL"`, POST to `/fapi/v1/algoOrder`, and
mark a dict response with `_via_algo_api=True`. -/
def new_algo_order (cfg : ClientConfig) (oracle : Oracle) (now : Int)
    (params : Params) : PyResult JsonVal × List Call :=
  match ensure_required params ["symbol", "side", "type"] with
  | some m => (.valueErr m, [])
  | none =>
      let params1 := prepare_algo_order_params params
      let params2 := setp params1 "type"
        (Value.vStr (normalize_order_type (getD params1 "type" Value.vNull)))
      let params3 := setp params2 "algoType" (Value.vStr "CONDITIONAL")
      let r := request cfg oracle now "POST" "/fapi/v1/algoOrder" params3
      match r.1 with
      | .ok (.dict p) => (.ok (.dict (setp p "_via_algo_api" (Value.vBool true))), r.2)
      | x => (x, r.2)

/-- `new_order`: normalize the type, pop the `_force_rest_route` override,
route conditional types to the algo endpoint when auto-switching, otherwise
POST to `/fapi/v1/order` and fall back to the algo endpoint exactly once on
error code `-4120`. -/
def new_order (cfg : ClientConfig) (oracle : Oracle) (now : Int)
    (params : Params) : PyResult JsonVal × List Call :=
  match ensure_required params ["symbol", "side", "type"] with
  | some m => (.valueErr m, [])
  | none =>
      let order_type := normalize_order_type (getD params "type" Value.vNull)
      let params1 := setp params "type" (Value.vStr order_type)
      let pop1 := popD params1 "_force_rest_route" Value.vNull
      let force_rest_route := pyTruthy pop1.1
      let params2 := pop1.2
      if cfg.auto_switch_conditional_to_algo && is_conditional_type order_type
          && !force_rest_route then
        new_algo_order cfg oracle now params2
      else
        let r := request cfg oracle now "POST" "/fapi/v1/order" params2
        match r.1 with
        | .apiErr e =>
            if e.error_code = some (-4120) ∧ cfg.auto_switch_conditional_to_algo then
              let r2 := new_algo_order cfg oracle now params2
              (r2.1, r.2 ++ r2.2)
            else (.apiErr e, r.2)
        | x => (x, r.2)

/-- `cancel_algo_order`: ensure `symbol` and `algoId`, DELETE `/fapi/v1/algoOrder`. -/
def cancel_algo_order (cfg : ClientConfig) (oracle : Oracle) (now : Int)
    (params : Params) : PyResult JsonVal × List Call :=
  match ensure_required params ["symbol", "algoId"] with
  | some m => (.valueErr m, [])
  | none => request cfg oracle now "DELETE" "/fapi/v1/algoOrder" params

/-- `query_algo_order`: ensure `algoId`, GET `/fapi/v1/algoOrder`. -/
def query_algo_order (cfg : ClientConfig) (oracle : Oracle) (now : Int)
    (params : Params) : PyResult JsonVal × List Call :=
  match ensure_required params ["algoId"] with
  | some m => (.valueErr m, [])
  | none => request cfg oracle now "GET" "/fapi/v1/algoOrder" params

/-- The identifier extraction shared by `query_order` and `cancel_order`:
`params.pop("algoOrderId", None) or params.pop("algoId", None)` with
Python's short-circuiting `or` (the second pop only runs when the first
popped value is falsy).  Returns the extracted identifier and the remaining
parameters. -/
def extract_algo_id (params : Params) : Value × Params :=
  let pop1 := popD params "algoOrderId" Value.vNull
  if pyTruthy pop1.1 then pop1
  else popD pop1.2 "algoId" Value.vNull

/-- `query_order`: prefer the algo endpoint when an algo identifier was
supplied and no regular identifier is truthy; otherwise GET
`/fapi/v1/order`, falling back to the algo endpoint on an
order-not-found error when fallback is enabled. -/
def query_order (cfg : ClientConfig) (oracle : Oracle) (now : Int)
    (allow_algo_fallback : Option Bool) (params : Params) : PyResult JsonVal × List Call :=
  let ex := extract_algo_id params
  let algo_id := ex.1
  let params1 := ex.2
  let prefer_algo_direct := algo_id ≠ Value.vNull
      ∧ ¬ pyTruthy (getD params1 "orderId" Value.vNull)
      ∧ ¬ pyTruthy (getD params1 "origClientOrderId" Value.vNull)
  let fallback_enabled := allow_algo_fallback.getD cfg.attempt_algo_on_not_found
  if prefer_algo_direct then
    query_algo_order cfg oracle now
      [("algoId", algo_id), ("symbol", getD params1 "symbol" Value.vNull)]
  else
    match ensure_required params1 ["symbol"] with
    | some m => (.valueErr m, [])
    | none =>
        let r := request cfg oracle now "GET" "/fapi/v1/order" params1
        match r.1 with
        | .apiErr e =>
            if fallback_enabled ∧ algo_id ≠ Value.vNull ∧ is_order_not_found e then
              let r2 := query_algo_order cfg oracle now
                [("algoId", algo_id), ("symbol", getD params1 "symbol" Value.vNull)]
              (r2.1, r.2 ++ r2.2)
            else (.apiErr e, r.2)
        | x => (x, r.2)

/-- `cancel_order`: same routing as `query_order` with DELETE verbs and
`cancel_algo_order` (whose keyword order is `symbol`, then `algoId`). -/
def cancel_order (cfg : ClientConfig) (oracle : Oracle) (now : Int)
    (allow_algo_fallback : Option Bool) (params : Params) : PyResult JsonVal × List Call :=
  let ex := extract_algo_id params
  let algo_id := ex.1
  let params1 := ex.2
  let prefer_algo_direct := algo_id ≠ Value.vNull
      ∧ ¬ pyTruthy (getD params1 "orderId" Value.vNull)
      ∧ ¬ pyTruthy (getD params1 "origClientOrderId" Value.vNull)
  let fallback_enabled := allow_algo_fallback.getD cfg.attempt_algo_on_not_found
  if prefer_algo_direct then
    cancel_algo_order cfg oracle now
      [("symbol", getD params1 "symbol" Value.vNull), ("algoId", algo_id)]
  else
    match ensure_required params1 ["symbol"] with
    | some m => (.valueErr m, [])
    | none =>
        let r := request cfg oracle now "DELETE" "/fapi/v1/order" params1
        match r.1 with
        | .apiErr e =>
            if fallback_enabled ∧ algo_id ≠ Value.vNull ∧ is_order_not_found e then
              let r2 := cancel_algo_order cfg oracle now
                [("symbol", getD params1 "symbol" Value.vNull), ("algoId", algo_id)]
              (r2.1, r.2 ++ r2.2)
            else (.apiErr e, r.2)
        | x => (x, r.2)

/-- `json.dumps` on a parameter value (the batch payload serialization). -/
def dumps_value : Value → String
  | .vStr s => "\x22" ++ s ++ "\x22"
  | .vInt n => toString n
  | .vBool b => if b then "true" else "false"
  | .vNull => "null"

/-- `json.dumps` on one order dict. -/
def dumps_dict (p : Params) : String :=
  "\x7b" ++ String.intercalate ", " (p.map (fun kv => "\x22" ++ kv.1 ++ "\x22: " ++ dumps_value kv.2)) ++ "\x7d"

/-- `json.dumps` on the list of regular orders. -/
def dumps_list (l : List Params) : String :=
  "[" ++ String.intercalate ", " (l.map dumps_dict) ++ "]"

/-- The classification loop of `new_batch_orders`: for each order, ensure the
required fields, normalize its type, and partition into
(conditional, regular) sublists preserving input order; the first
`ValueError` aborts the whole batch. -/
def classify_orders : List Params → Except String (List Params × List Params)
  | [] => .ok ([], [])
  | o :: rest =>
      match ensure_required o ["symbol", "side", "type"] with
      | some m => .error m
      | none =>
          let oc := setp o "type" (Value.vStr (normalize_order_type (getD o "type" Value.vNull)))
          match classify_orders rest with
          | .error m => .error m
          | .ok (conds, regs) =>
              if is_conditional_type (pyStr (getD oc "type" Value.vNull)) then
                .ok (oc :: conds, regs)
              else
                .ok (conds, oc :: regs)

/-- The composite result of `new_batch_orders`:
`result = {"regular": ..., "conditional": [...]}`. -/
structure BatchResult where
  regular : Option JsonVal
  conditional : List JsonVal
deriving DecidableEq

/-- The conditional loop of `new_batch_orders`: submit each conditional order
individually through `new_algo_order` with the shared parameters merged in,
collecting results in input order; a raised error propagates (discarding the
partial result list, as the Python exception does). -/
def run_conditional_orders (cfg : ClientConfig) (oracle : Oracle) (now : Int)
    (shared : Params) : List Params → PyResult (List JsonVal) × List Call
  | [] => (.ok [], [])
  | o :: rest =>
      let r := new_algo_order cfg oracle now (merge shared o)
      match r.1 with
      | .ok j =>
          let rs := run_conditional_orders cfg oracle now shared rest
          match rs.1 with
          | .ok js => (.ok (j :: js), r.2 ++ rs.2)
          | .apiErr e => (.apiErr e, r.2 ++ rs.2)
          | .valueErr m => (.valueErr m, r.2 ++ rs.2)
      | .apiErr e => (.apiErr e, r.2)
      | .valueErr m => (.valueErr m, r.2)

/-- `new_batch_orders`: reject empty batches, classify every order, fail fast
when conditional orders are present and auto-splitting is disabled, send the
regular orders as one batch call, then the conditional orders individually. -/
def new_batch_orders (cfg : ClientConfig) (oracle : Oracle) (now : Int)
    (orders : List Params) (auto_split_conditional : Bool)
    (params : Params) : PyResult BatchResult × List Call :=
  if orders = [] then
    (.valueErr "orders list is required for batch placement.", [])
  else
    let shared_params := clean_params params
    match classify_orders orders with
    | .error m => (.valueErr m, [])
    | .ok (conditional_orders, regular_orders) =>
        if conditional_orders ≠ [] ∧ ¬ auto_split_conditional then
          (.valueErr "Batch contains conditional order types. Route them via the Algo endpoint or enable auto_split_conditional.", [])
        else
          let step1 : PyResult (Option JsonVal) × List Call :=
            if regular_orders = [] then (.ok none, [])
            else
              let payload := merge [("batchOrders", Value.vStr (dumps_list regular_orders))] shared_params
              let r := request cfg oracle now "POST" "/fapi/v1/batchOrders" payload
              match r.1 with
              | .ok j => (.ok (some j), r.2)
              | .apiErr e => (.apiErr e, r.2)
              | .valueErr m => (.valueErr m, r.2)
          match step1 with
          | (.apiErr e, tr) => (.apiErr e, tr)
          | (.valueErr m, tr) => (.valueErr m, tr)
          | (.ok reg, tr) =>
              let rs := run_conditional_orders cfg oracle now shared_params conditional_orders
              match rs.1 with
              | .ok js => (.ok ⟨reg, js⟩, tr ++ rs.2)
              | .apiErr e => (.apiErr e, tr ++ rs.2)
              | .valueErr m => (.valueErr m, tr ++ rs.2)

/-- Shared tail of the three dedicated conditional helpers: prepare the
parameters from a defensive copy, force the method's fixed order type,
delegate to `new_algo_order`, and stamp `_via_algo_api=True` on a dict
result (the source performs the stamp unconditionally; a non-dict result
would fault in Python and is passed through here). -/
def new_fixed_type_order (cfg : ClientConfig) (oracle : Oracle) (now : Int)
    (fixed_type : String) (params : Params) : PyResult JsonVal × List Call :=
  let params_copy := prepare_algo_order_params params
  let params_copy2 := setp params_copy "type" (Value.vStr fixed_type)
  let r := new_algo_order cfg oracle now params_copy2
  match r.1 with
  | .ok (.dict p) => (.ok (.dict (setp p "_via_algo_api" (Value.vBool true))), r.2)
  | x => (x, r.2)

/-- `new_stop_loss_order`: ensure `symbol`, `side`, `stopPrice`, then submit
with the fixed type `STOP_MARKET`. -/
def new_stop_loss_order (cfg : ClientConfig) (oracle : Oracle) (now : Int)
    (params : Params) : PyResult JsonVal × List Call :=
  match ensure_required params ["symbol", "side", "stopPrice"] with
  | some m => (.valueErr m, [])
  | none => new_fixed_type_order cfg oracle now "STOP_MARKET" params

/-- `new_take_profit_order`: ensure `symbol`, `side`, `stopPrice`, then submit
with the fixed type `TAKE_PROFIT_MARKET`. -/
def new_take_profit_order (cfg : ClientConfig) (oracle : Oracle) (now : Int)
    (params : Params) : PyResult JsonVal × List Call :=
  match ensure_required params ["symbol", "side", "stopPrice"] with
  | some m => (.valueErr m, [])
  | none => new_fixed_type_order cfg oracle now "TAKE_PROFIT_MARKET" params

/-- `new_trailing_stop_order`: ensure `symbol`, `side`, `callbackRate`, then
submit with the fixed type `TRAILING_STOP_MARKET`. -/
def new_trailing_stop_order (cfg : ClientConfig) (oracle : Oracle) (now : Int)
    (params : Params) : PyResult JsonVal × List Call :=
  match ensure_required params ["symbol", "side", "callbackRate"] with
  | some m => (.valueErr m, [])
  | none => new_fixed_type_order cfg oracle now "TRAILING_STOP_MARKET" params

/- ------------------------------------------------------------------ -/
/- Derived wire-level descriptions (used to state the theorems).       -/
/- ------------------------------------------------------------------ -/

/-- How `_request` maps a backend outcome to the Python result. -/
def api_result (oracle : Oracle) (c : Call) : PyResult JsonVal :=
  match oracle c with
  | .success j => .ok j
  | .failure e => .apiErr e

/-- The `_via_algo_api=True` stamp `new_algo_order` applies to a dict result. -/
def mark_algo : PyResult JsonVal → PyResult JsonVal
  | .ok (.dict p) => .ok (.dict (setp p "_via_algo_api" (Value.vBool true)))
  | x => x

/-- The outgoing parameter dictionary `new_algo_order` hands to `_request`
(before cleaning and signing). -/
def algo_wire_params (p : Params) : Params :=
  let p1 := prepare_algo_order_params p
  let p2 := setp p1 "type" (Value.vStr (normalize_order_type (getD p1 "type" Value.vNull)))
  setp p2 "algoType" (Value.vStr "CONDITIONAL")

/-- The single wire call `new_algo_order` issues for input `p`. -/
def algo_order_call (cfg : ClientConfig) (now : Int) (p : Params) : Call :=
  signed_call cfg now "POST" "/fapi/v1/algoOrder" (algo_wire_params p)

/-- The single batch wire call `new_batch_orders` issues for the
regular-classified orders. -/
def batch_call (cfg : ClientConfig) (now : Int) (regs : List Params) (shared : Params) : Call :=
  signed_call cfg now "POST" "/fapi/v1/batchOrders"
    (merge [("batchOrders", Value.vStr (dumps_list regs))] (clean_params shared))

/-- The body a successful conditional submission returns for input `p`
(the backend body of the algo call, marker-stamped when it is a dict).
Used only to state results under an all-successful oracle; the failure
branch is unreachable there. -/
def algo_ok_body (cfg : ClientConfig) (oracle : Oracle) (now : Int) (p : Params) : JsonVal :=
  match oracle (algo_order_call cfg now p) with
  | .success (.dict b) => .dict (setp b "_via_algo_api" (Value.vBool true))
  | .success j => j
  | .failure _ => .other ""

/-- The parameters `new_order` hands to the regular endpoint: the input with
its type normalized and the `_force_rest_route` flag popped. -/
def rest_order_params (p : Params) : Params :=
  erase (setp p "type" (Value.vStr (normalize_order_type (getD p "type" Value.vNull)))) "_force_rest_route"

/-- The wire call `new_order` issues to the regular endpoint. -/
def rest_order_call (cfg : ClientConfig) (now : Int) (p : Params) : Call :=
  signed_call cfg now "POST" "/fapi/v1/order" (rest_order_params p)

/- ------------------------------------------------------------------ -/
/- Concrete fixtures for the witness theorems.                         -/
/- ------------------------------------------------------------------ -/

/-- A stand-in HMAC for concrete evaluations (the theorems hold for any). -/
def test_hmac (secret msg : String) : String := secret ++ ":" ++ msg

/-- A client constructed with both credentials and the default flags
(`auto_switch_conditional_to_algo=True`, `attempt_algo_on_not_found=False`). -/
def cfg0 : ClientConfig :=
  ⟨some "key", some "secret", 5000, true, false, test_hmac⟩

/-- A backend that answers every call with a fixed successful dict. -/
def oracle_success : Oracle := fun _ => .success (.dict [("orderId", Value.vInt 11111)])

/-- A backend that fails calls to one path with a fixed error and answers
every other call with a successful dict. -/
def oracle_fail_on (path : String) (e : ApiError) : Oracle := fun c =>
  if c.path = path then .failure e else .success (.dict [("algoId", Value.vInt 777)])

/-- The migration error (`STOP_ORDER_SWITCH_ALGO`). -/
def err4120 : ApiError := ⟨400, some (-4120), "STOP_ORDER_SWITCH_ALGO"⟩

/-- An order-not-found error. -/
def err2013 : ApiError := ⟨400, some (-2013), "Order does not exist."⟩

/-- An unrelated API error. -/
def err1000 : ApiError := ⟨400, some (-1000), "UNKNOWN"⟩

/-- A conditional order request with a lower-case type and a caller-supplied
`algoType` that must be overridden. -/
def p_cond : Params :=
  [("symbol", Value.vStr "BTCUSDT"), ("side", Value.vStr "SELL"),
   ("type", Value.vStr "stop_market"), ("stopPrice", Value.vStr "25000"),
   ("quantity", Value.vInt 1), ("algoType", Value.vStr "TWAP")]

/-- A full-position-close conditional order request that also supplies
`quantity` and `reduceOnly`. -/
def p_close : Params :=
  [("symbol", Value.vStr "BTCUSDT"), ("side", Value.vStr "SELL"),
   ("type", Value.vStr "STOP_MARKET"), ("stopPrice", Value.vStr "50000"),
   ("closePosition", Value.vStr "true"), ("quantity", Value.vInt 1),
   ("reduceOnly", Value.vStr "true")]

/-- A regular (MARKET) order request. -/
def p_market : Params :=
  [("symbol", Value.vStr "BTCUSDT"), ("side", Value.vStr "BUY"),
   ("type", Value.vStr "MARKET"), ("quantity", Value.vInt 1)]

/-- A request for the dedicated stop/take-profit/trailing helpers that also
smuggles in a caller-supplied `type` that must be overridden. -/
def p_guard : Params :=
  [("symbol", Value.vStr "BTCUSDT"), ("side", Value.vStr "SELL"),
   ("stopPrice", Value.vStr "50000"), ("callbackRate", Value.vStr "1.5"),
   ("quantity", Value.vInt 1), ("type", Value.vStr "LIMIT")]

/-- A cancel/query request supplying both a truthy regular identifier and a
truthy conditional identifier. -/
def p_both_ids : Params :=
  [("symbol", Value.vStr "BTCUSDT"), ("orderId", Value.vInt 5),
   ("algoOrderId", Value.vInt 99)]

/- ------------------------------------------------------------------ -/
/- Supporting lemmas.                                                  -/

/- ------------------------------------------------------------------ -/
/- Theorems.                                                           -/
/- ------------------------------------------------------------------ -/

/- Basic dictionary lemmas. -/

theorem pyTruthy_vNull : pyTruthy Value.vNull = false := rfl

theorem ne_vNull_of_pyTruthy {v : Value} (h : pyTruthy v = true) : v ≠ Value.vNull := by
  intro hv; subst hv; simp [pyTruthy] at h

@[simp] theorem lookup?_nil (k : String) : lookup? [] k = none := rfl

@[simp] theorem lookup?_cons (k0 k : String) (v : Value) (rest : Params) :
    lookup? ((k0, v) :: rest) k = if k0 = k then some v else lookup? rest k := rfl

theorem lookup?_append (p q : Params) (k : String) :
    lookup? (p ++ q) k = ((lookup? p k).or (lookup? q k)) := by
  induction p with
  | nil => simp
  | cons kv rest ih =>
      obtain ⟨k0, v⟩ := kv
      by_cases h : k0 = k <;> simp [h, ih]

theorem lookup?_setp_self (p : Params) (k : String) (v : Value) :
    lookup? (setp p k v) k = some v := by
  induction p with
  | nil => simp [setp]
  | cons kv rest ih =>
      obtain ⟨k0, v0⟩ := kv
      by_cases h : k0 = k <;> simp [setp, h, ih]

theorem lookup?_setp_ne (p : Params) (k k' : String) (v : Value) (h : k ≠ k') :
    lookup? (setp p k v) k' = lookup? p k' := by
  induction p with
  | nil => simp [setp, h]
  | cons kv rest ih =>
      obtain ⟨k0, v0⟩ := kv
      by_cases h0 : k0 = k
      · subst h0; simp [setp, h]
      · simp [setp, h0, ih]

theorem lookup?_erase_self (p : Params) (k : String) :
    lookup? (erase p k) k = none := by
  induction p with
  | nil => simp [erase]
  | cons kv rest ih =>
      obtain ⟨k0, v0⟩ := kv
      by_cases h : k0 = k <;> simp [erase, h, ih]

theorem lookup?_erase_ne (p : Params) (k k' : String) (h : k ≠ k') :
    lookup? (erase p k) k' = lookup? p k' := by
  induction p with
  | nil => simp [erase]
  | cons kv rest ih =>
      obtain ⟨k0, v0⟩ := kv
      by_cases h0 : k0 = k
      · subst h0
        simp [erase, h, ih]
      · by_cases h1 : k0 = k' <;> simp [erase, h0, h1, ih, Ne.symm h]

theorem getD_setp_self (p : Params) (k : String) (v d : Value) :
    getD (setp p k v) k d = v := by
  simp [getD, lookup?_setp_self]

theorem getD_setp_ne (p : Params) (k k' : String) (v d : Value) (h : k ≠ k') :
    getD (setp p k v) k' d = getD p k' d := by
  simp [getD, lookup?_setp_ne _ _ _ _ h]

theorem getD_erase_ne (p : Params) (k k' : String) (d : Value) (h : k ≠ k') :
    getD (erase p k) k' d = getD p k' d := by
  simp [getD, lookup?_erase_ne _ _ _ h]

theorem lookup?_setdefault_ne (p : Params) (k k' : String) (v : Value) (h : k ≠ k') :
    lookup? (setdefault p k v) k' = lookup? p k' := by
  unfold setdefault
  by_cases hk : hasKey p k <;> simp [hk, lookup?_append]
  cases hl : lookup? p k' <;> simp [h]

theorem setdefault_of_hasKey (p : Params) (k : String) (v : Value) (h : hasKey p k = true) :
    setdefault p k v = p := by
  simp [setdefault, h]

theorem lookup?_filter_congr (b : Params) (k : String) (f g : String × Value → Bool)
    (h : ∀ v, f (k, v) = g (k, v)) :
    lookup? (b.filter f) k = lookup? (b.filter g) k := by
  induction b with
  | nil => simp
  | cons kv rest ih =>
      obtain ⟨k1, v1⟩ := kv
      by_cases h1 : k1 = k
      · subst h1
        cases hf : f (k1, v1) <;> rw [List.filter_cons] <;>
          · rw [List.filter_cons, ← h v1, hf]
            simp [ih]
      · cases hf : f (k1, v1) <;> cases hg : g (k1, v1) <;>
          simp [List.filter_cons, hf, hg, h1, ih]

theorem lookup?_filter_of_key (b : Params) (k : String) (f : String × Value → Bool)
    (h : ∀ v, f (k, v) = true) :
    lookup? (b.filter f) k = lookup? b k := by
  induction b with
  | nil => simp
  | cons kv rest ih =>
      obtain ⟨k1, v1⟩ := kv
      by_cases h1 : k1 = k
      · subst h1
        rw [List.filter_cons, h v1]
        simp [ih]
      · cases hf : f (k1, v1) <;> simp [List.filter_cons, hf, h1, ih]

theorem lookup?_merge (a b : Params) (k : String) :
    lookup? (merge a b) k = ((lookup? b k).or (lookup? a k)) := by
  induction a with
  | nil =>
      simp only [merge, List.map_nil, List.nil_append, lookup?_nil]
      rw [lookup?_filter_of_key]
      · cases lookup? b k <;> simp
      · intro v; simp [hasKey]
  | cons kv rest ih =>
      obtain ⟨k0, v0⟩ := kv
      by_cases h : k0 = k
      · subst h
        simp only [merge, List.map_cons, List.cons_append, lookup?_cons, if_pos rfl]
        cases hb : lookup? b k0 <;> simp [getD, hb]
      · simp only [merge, List.map_cons, List.cons_append, lookup?_cons, if_neg h] at ih ⊢
        rw [lookup?_append] at ih ⊢
        have hcongr :
            lookup? (b.filter (fun kv => ¬ hasKey ((k0, v0) :: rest) kv.1)) k
              = lookup? (b.filter (fun kv => ¬ hasKey rest kv.1)) k := by
          apply lookup?_filter_congr
          intro v
          simp [hasKey, h]
        rw [hcongr]
        exact ih

/- ------------------------------------------------------------------ -/
/- Client data model (from `client.py`).                               -/
/- ------------------------------------------------------------------ -/

/- ------------------------------------------------------------------ -/

theorem ensure_required_eq_none_iff (p : Params) (fs : List String) :
    ensure_required p fs = none ↔ ∀ f ∈ fs, getD p f Value.vNull ≠ Value.vNull := by
  simp only [ensure_required]
  split <;> rename_i h <;> simp_all [List.filter_eq_nil_iff]

theorem lookup?_clean_of_ne_null (p : Params) (k : String) (v : Value)
    (hv : v ≠ Value.vNull) (h : lookup? p k = some v) :
    lookup? (clean_params p) k = some v := by
  induction p with
  | nil => simp at h
  | cons kv rest ih =>
      obtain ⟨k0, v0⟩ := kv
      by_cases h0 : k0 = k
      · subst h0
        rw [lookup?_cons, if_pos rfl] at h
        injection h with h
        subst h
        simp [clean_params, List.filter_cons, hv]
      · by_cases hv0 : v0 = Value.vNull <;>
          simp_all [clean_params, List.filter_cons, h0]

theorem lookup?_clean_none (p : Params) (k : String) (h : lookup? p k = none) :
    lookup? (clean_params p) k = none := by
  induction p with
  | nil => simp [clean_params]
  | cons kv rest ih =>
      obtain ⟨k0, v0⟩ := kv
      by_cases h0 : k0 = k
      · subst h0; simp at h
      · by_cases hv0 : v0 = Value.vNull <;>
          simp_all [clean_params, List.filter_cons, h0]

theorem lookup?_setdefault_of_lookup (p : Params) (k k' : String) (v w : Value)
    (h : lookup? p k' = some w) :
    lookup? (setdefault p k v) k' = some w := by
  unfold setdefault
  by_cases hk : hasKey p k
  · simp [hk, h]
  · simp [hk, lookup?_append, h]

theorem lookup?_sign_of_lookup (cfg : ClientConfig) (now : Int) (p : Params)
    (k : String) (v : Value) (hsig : k ≠ "signature") (h : lookup? p k = some v) :
    lookup? (sign_params cfg now p) k = some v := by
  unfold sign_params
  rw [lookup?_setp_ne _ _ _ _ (Ne.symm hsig)]
  exact lookup?_setdefault_of_lookup _ _ _ _ _ (lookup?_setdefault_of_lookup _ _ _ _ _ h)

theorem lookup?_sign_other (cfg : ClientConfig) (now : Int) (p : Params) (k : String)
    (h1 : k ≠ "timestamp") (h2 : k ≠ "recvWindow") (h3 : k ≠ "signature") :
    lookup? (sign_params cfg now p) k = lookup? p k := by
  unfold sign_params
  rw [lookup?_setp_ne _ _ _ _ (Ne.symm h3),
    lookup?_setdefault_ne _ _ _ _ (Ne.symm h2),
    lookup?_setdefault_ne _ _ _ _ (Ne.symm h1)]

theorem request_eq (cfg : ClientConfig) (oracle : Oracle) (now : Int)
    (method path : String) (p : Params) (hcreds : check_credentials cfg = none) :
    request cfg oracle now method path p
      = (api_result oracle (signed_call cfg now method path p),
         [signed_call cfg now method path p]) := by
  simp only [request, hcreds]
  cases h : oracle (signed_call cfg now method path p) <;> simp [api_result, h]

theorem is_conditional_of_mem (s : String) (h : s ∈ CONDITIONAL_ORDER_TYPES) :
    is_conditional_type s = true := by
  simp only [CONDITIONAL_ORDER_TYPES, List.mem_cons, List.not_mem_nil, or_false] at h
  rcases h with rfl | rfl | rfl | rfl | rfl <;> decide

theorem algo_wire_params_def (p : Params) :
    setp (setp (prepare_algo_order_params p) "type"
        (Value.vStr (normalize_order_type (getD (prepare_algo_order_params p) "type" Value.vNull))))
      "algoType" (Value.vStr "CONDITIONAL") = algo_wire_params p := rfl

theorem algo_order_call_def (cfg : ClientConfig) (now : Int) (p : Params) :
    signed_call cfg now "POST" "/fapi/v1/algoOrder" (algo_wire_params p)
      = algo_order_call cfg now p := rfl

theorem new_algo_order_eq (cfg : ClientConfig) (oracle : Oracle) (now : Int)
    (params : Params)
    (hens : ensure_required params ["symbol", "side", "type"] = none)
    (hcreds : check_credentials cfg = none) :
    new_algo_order cfg oracle now params
      = (mark_algo (api_result oracle (algo_order_call cfg now params)),
         [algo_order_call cfg now params]) := by
  simp only [new_algo_order, hens, algo_wire_params_def]
  rw [request_eq cfg oracle now _ _ _ hcreds, algo_order_call_def]
  cases h : api_result oracle (algo_order_call cfg now params) with
  | ok j => cases j <;> simp [mark_algo, h]
  | apiErr e => simp [mark_algo, h]
  | valueErr m => simp [mark_algo, h]

theorem lookup?_algo_call_algoType (cfg : ClientConfig) (now : Int) (p : Params) :
    lookup? (algo_order_call cfg now p).params "algoType" = some (Value.vStr "CONDITIONAL") := by
  show lookup? (sign_params cfg now (clean_params (algo_wire_params p))) "algoType" = _
  apply lookup?_sign_of_lookup _ _ _ _ _ (by decide)
  apply lookup?_clean_of_ne_null _ _ _ (by simp)
  unfold algo_wire_params
  exact lookup?_setp_self _ _ _

/-- C6: signing is deterministic — for every parameter mapping that already
carries a `timestamp` value, every secret and configuration, the signed
output of `_sign_params` is independent of the invocation's clock reading,
so two independent invocations produce byte-identical signed parameter
sequences (in particular identical signature hex digests). -/
theorem c6_sign_params_deterministic (cfg : ClientConfig) (p : Params) (now1 now2 : Int)
    (h : hasKey p "timestamp" = true) :
    sign_params cfg now1 p = sign_params cfg now2 p := by
  unfold sign_params
  rw [setdefault_of_hasKey p "timestamp" (Value.vInt now1) h,
      setdefault_of_hasKey p "timestamp" (Value.vInt now2) h]

theorem c6_sign_params_deterministic_witness :
    hasKey [("timestamp", Value.vInt 1700000000000)] "timestamp" = true ∧
    sign_params cfg0 1 [("timestamp", Value.vInt 1700000000000)]
      = sign_params cfg0 2 [("timestamp", Value.vInt 1700000000000)] :=
  ⟨by decide, c6_sign_params_deterministic cfg0 [("timestamp", Value.vInt 1700000000000)] 1 2 (by decide)⟩

/-- C8 counterexample: `_prepare_algo_order_params` does not leave the
mapping passed in unmodified — with `closePosition="true"` and a supplied
`quantity`, the argument object observed after the call (the same object
the function returns, mutated by `del`) has lost keys. -/
theorem c8_counterexample :
    prepare_algo_order_params_arg_after
        [("closePosition", Value.vStr "true"), ("quantity", Value.vInt 1), ("reduceOnly", Value.vStr "true")]
      ≠ [("closePosition", Value.vStr "true"), ("quantity", Value.vInt 1), ("reduceOnly", Value.vStr "true")] := by
  decide

/-- C8 (amended): the sanitization step returns the sanitized mapping, but it
mutates the mapping passed in (the returned object is the argument itself);
apart from deleting `quantity` and `reduceOnly` when `closePosition`
normalizes to `"true"`, every binding is left unchanged, and when
`closePosition` does not normalize to `"true"` the mapping is returned
entirely unchanged. -/
theorem c8_prepare_algo_order_params_frame (p : Params) (k : String)
    (h1 : k ≠ "quantity") (h2 : k ≠ "reduceOnly") :
    prepare_algo_order_params_arg_after p = prepare_algo_order_params p ∧
    lookup? (prepare_algo_order_params p) k = lookup? p k ∧
    (pyLower (pyStr (getD p "closePosition" (Value.vStr ""))) = "true" →
      prepare_algo_order_params p = erase (erase p "quantity") "reduceOnly") ∧
    (pyLower (pyStr (getD p "closePosition" (Value.vStr ""))) ≠ "true" →
      prepare_algo_order_params p = p) := by
  refine ⟨rfl, ?_, ?_, ?_⟩
  · unfold prepare_algo_order_params
    by_cases hcp : pyLower (pyStr (getD p "closePosition" (Value.vStr ""))) = "true"
    · rw [if_pos hcp, lookup?_erase_ne _ _ _ (Ne.symm h2), lookup?_erase_ne _ _ _ (Ne.symm h1)]
    · rw [if_neg hcp]
  · intro hcp
    unfold prepare_algo_order_params
    rw [if_pos hcp]
  · intro hcp
    unfold prepare_algo_order_params
    rw [if_neg hcp]

theorem c8_prepare_algo_order_params_frame_witness :
    prepare_algo_order_params_arg_after [("closePosition", Value.vStr "false"), ("quantity", Value.vInt 2)]
        = prepare_algo_order_params [("closePosition", Value.vStr "false"), ("quantity", Value.vInt 2)] ∧
    lookup? (prepare_algo_order_params [("closePosition", Value.vStr "false"), ("quantity", Value.vInt 2)]) "symbol"
        = lookup? [("closePosition", Value.vStr "false"), ("quantity", Value.vInt 2)] "symbol" ∧
    (pyLower (pyStr (getD [("closePosition", Value.vStr "false"), ("quantity", Value.vInt 2)] "closePosition" (Value.vStr ""))) = "true" →
      prepare_algo_order_params [("closePosition", Value.vStr "false"), ("quantity", Value.vInt 2)]
        = erase (erase [("closePosition", Value.vStr "false"), ("quantity", Value.vInt 2)] "quantity") "reduceOnly") ∧
    (pyLower (pyStr (getD [("closePosition", Value.vStr "false"), ("quantity", Value.vInt 2)] "closePosition" (Value.vStr ""))) ≠ "true" →
      prepare_algo_order_params [("closePosition", Value.vStr "false"), ("quantity", Value.vInt 2)]
        = [("closePosition", Value.vStr "false"), ("quantity", Value.vInt 2)]) :=
  c8_prepare_algo_order_params_frame _ "symbol" (by decide) (by decide)

/-- C3: for every conditional-order submission through `new_algo_order` whose
`closePosition` parameter stringifies, lower-cased, to `"true"`, the
parameters sent over the wire contain neither `quantity` nor `reduceOnly`
(even when supplied non-null), and every other caller-supplied non-null
parameter — apart from the normalized `type`, the forced `algoType`, and the
appended `signature` — is passed through unchanged. -/
theorem c3_close_position_strips_quantity (cfg : ClientConfig) (oracle : Oracle) (now : Int)
    (params : Params)
    (hens : ensure_required params ["symbol", "side", "type"] = none)
    (hcreds : check_credentials cfg = none)
    (hclose : pyLower (pyStr (getD params "closePosition" (Value.vStr ""))) = "true") :
    ∃ ps, (new_algo_order cfg oracle now params).2 = [Call.mk "POST" "/fapi/v1/algoOrder" ps]
      ∧ lookup? ps "quantity" = none
      ∧ lookup? ps "reduceOnly" = none
      ∧ (∀ k v, k ≠ "quantity" → k ≠ "reduceOnly" → k ≠ "type" → k ≠ "algoType" →
          k ≠ "signature" → lookup? params k = some v → v ≠ Value.vNull →
          lookup? ps k = some v) := by
  rw [new_algo_order_eq cfg oracle now params hens hcreds]
  refine ⟨(algo_order_call cfg now params).params, rfl, ?_, ?_, ?_⟩
  · show lookup? (sign_params cfg now (clean_params (algo_wire_params params))) "quantity" = none
    rw [lookup?_sign_other _ _ _ _ (by decide) (by decide) (by decide)]
    apply lookup?_clean_none
    unfold algo_wire_params prepare_algo_order_params
    rw [lookup?_setp_ne _ _ _ _ (by decide), lookup?_setp_ne _ _ _ _ (by decide),
      if_pos hclose, lookup?_erase_ne _ _ _ (by decide), lookup?_erase_self]
  · show lookup? (sign_params cfg now (clean_params (algo_wire_params params))) "reduceOnly" = none
    rw [lookup?_sign_other _ _ _ _ (by decide) (by decide) (by decide)]
    apply lookup?_clean_none
    unfold algo_wire_params prepare_algo_order_params
    rw [lookup?_setp_ne _ _ _ _ (by decide), lookup?_setp_ne _ _ _ _ (by decide),
      if_pos hclose, lookup?_erase_self]
  · intro k v hq hr ht ha hs hk hv
    show lookup? (sign_params cfg now (clean_params (algo_wire_params params))) k = some v
    apply lookup?_sign_of_lookup _ _ _ _ _ hs
    apply lookup?_clean_of_ne_null _ _ _ hv
    unfold algo_wire_params prepare_algo_order_params
    rw [lookup?_setp_ne _ _ _ _ (Ne.symm ha), lookup?_setp_ne _ _ _ _ (Ne.symm ht),
      if_pos hclose, lookup?_erase_ne _ _ _ (Ne.symm hr), lookup?_erase_ne _ _ _ (Ne.symm hq)]
    exact hk

theorem c3_close_position_strips_quantity_witness :
    ∃ ps, (new_algo_order cfg0 oracle_success 1000 p_close).2 = [Call.mk "POST" "/fapi/v1/algoOrder" ps]
      ∧ lookup? ps "quantity" = none
      ∧ lookup? ps "reduceOnly" = none
      ∧ (∀ k v, k ≠ "quantity" → k ≠ "reduceOnly" → k ≠ "type" → k ≠ "algoType" →
          k ≠ "signature" → lookup? p_close k = some v → v ≠ Value.vNull →
          lookup? ps k = some v) :=
  c3_close_position_strips_quantity cfg0 oracle_success 1000 p_close
    (by decide) (by decide) (by decide)

/-- C1: for every order request whose normalized (upper-cased) type is one of
the five conditional types, with auto-routing enabled and the
`_force_rest_route` override not set, `new_order` issues exactly one wire
call, to `/fapi/v1/algoOrder` — never attempting `/fapi/v1/order` — and the
outgoing parameters carry `algoType="CONDITIONAL"` regardless of any
caller-supplied `algoType` value. -/
theorem c1_conditional_type_routes_to_algo (cfg : ClientConfig) (oracle : Oracle)
    (now : Int) (params : Params)
    (hens : ensure_required params ["symbol", "side", "type"] = none)
    (hcreds : check_credentials cfg = none)
    (hauto : cfg.auto_switch_conditional_to_algo = true)
    (hcond : normalize_order_type (getD params "type" Value.vNull) ∈ CONDITIONAL_ORDER_TYPES)
    (hforce : pyTruthy (getD params "_force_rest_route" Value.vNull) = false) :
    ∃ ps, new_order cfg oracle now params
        = (mark_algo (api_result oracle (Call.mk "POST" "/fapi/v1/algoOrder" ps)),
           [Call.mk "POST" "/fapi/v1/algoOrder" ps])
      ∧ getD ps "algoType" Value.vNull = Value.vStr "CONDITIONAL" := by
  have hct := is_conditional_of_mem _ hcond
  have hforce1 : pyTruthy (getD (setp params "type"
      (Value.vStr (normalize_order_type (getD params "type" Value.vNull))))
      "_force_rest_route" Value.vNull) = false := by
    rw [getD_setp_ne _ _ _ _ _ (by decide)]
    exact hforce
  have hens2 : ensure_required (erase (setp params "type"
      (Value.vStr (normalize_order_type (getD params "type" Value.vNull))))
      "_force_rest_route") ["symbol", "side", "type"] = none := by
    rw [ensure_required_eq_none_iff] at hens ⊢
    intro f hf
    simp only [List.mem_cons, List.not_mem_nil, or_false] at hf
    rcases hf with rfl | rfl | rfl
    · rw [getD_erase_ne _ _ _ _ (by decide), getD_setp_ne _ _ _ _ _ (by decide)]
      exact hens "symbol" (by simp)
    · rw [getD_erase_ne _ _ _ _ (by decide), getD_setp_ne _ _ _ _ _ (by decide)]
      exact hens "side" (by simp)
    · rw [getD_erase_ne _ _ _ _ (by decide), getD_setp_self]
      simp
  simp only [new_order, hens, popD]
  rw [hauto, hct, hforce1]
  simp only [Bool.true_and, Bool.not_false, Bool.and_true, if_true]
  rw [new_algo_order_eq cfg oracle now _ hens2 hcreds]
  exact ⟨(algo_order_call cfg now (erase (setp params "type"
      (Value.vStr (normalize_order_type (getD params "type" Value.vNull))))
      "_force_rest_route")).params, rfl,
    by simp [getD, lookup?_algo_call_algoType]⟩

theorem c1_conditional_type_routes_to_algo_witness :
    ∃ ps, new_order cfg0 oracle_success 1000 p_cond
        = (mark_algo (api_result oracle_success (Call.mk "POST" "/fapi/v1/algoOrder" ps)),
           [Call.mk "POST" "/fapi/v1/algoOrder" ps])
      ∧ getD ps "algoType" Value.vNull = Value.vStr "CONDITIONAL" :=
  c1_conditional_type_routes_to_algo cfg0 oracle_success 1000 p_cond
    (by decide) (by decide) (by decide) (by decide) (by decide)

theorem ensure_rest_order_params (params : Params)
    (hens : ensure_required params ["symbol", "side", "type"] = none) :
    ensure_required (rest_order_params params) ["symbol", "side", "type"] = none := by
  unfold rest_order_params
  rw [ensure_required_eq_none_iff] at hens ⊢
  intro f hf
  simp only [List.mem_cons, List.not_mem_nil, or_false] at hf
  rcases hf with rfl | rfl | rfl
  · rw [getD_erase_ne _ _ _ _ (by decide), getD_setp_ne _ _ _ _ _ (by decide)]
    exact hens "symbol" (by simp)
  · rw [getD_erase_ne _ _ _ _ (by decide), getD_setp_ne _ _ _ _ _ (by decide)]
    exact hens "side" (by simp)
  · rw [getD_erase_ne _ _ _ _ (by decide), getD_setp_self]
    simp

/-- C2: whenever `new_order` attempts the regular endpoint and the attempt
fails with the migration error code `-4120`, auto-routing enabled makes it
perform exactly one fallback submission to `/fapi/v1/algoOrder` and never
touch `/fapi/v1/order` again; an error with a different code, or the same
error with auto-routing disabled, propagates to the caller unchanged after
the single regular attempt. -/
theorem c2_migration_error_fallback (cfg : ClientConfig) (oracle : Oracle)
    (now : Int) (params : Params) (e : ApiError)
    (hens : ensure_required params ["symbol", "side", "type"] = none)
    (hcreds : check_credentials cfg = none)
    (hroute : cfg.auto_switch_conditional_to_algo = false
      ∨ is_conditional_type (normalize_order_type (getD params "type" Value.vNull)) = false
      ∨ pyTruthy (getD params "_force_rest_route" Value.vNull) = true)
    (hfail : oracle (rest_order_call cfg now params) = .failure e) :
    ((e.error_code = some (-4120) ∧ cfg.auto_switch_conditional_to_algo = true) →
      ∃ ps, new_order cfg oracle now params
          = (mark_algo (api_result oracle (Call.mk "POST" "/fapi/v1/algoOrder" ps)),
             [rest_order_call cfg now params, Call.mk "POST" "/fapi/v1/algoOrder" ps])) ∧
    ((e.error_code ≠ some (-4120) ∨ cfg.auto_switch_conditional_to_algo = false) →
      new_order cfg oracle now params = (.apiErr e, [rest_order_call cfg now params])) := by
  have hcond : (cfg.auto_switch_conditional_to_algo
      && is_conditional_type (normalize_order_type (getD params "type" Value.vNull))
      && !pyTruthy (getD (setp params "type"
          (Value.vStr (normalize_order_type (getD params "type" Value.vNull))))
          "_force_rest_route" Value.vNull)) = false := by
    rcases hroute with h | h | h
    · simp [h]
    · simp [h]
    · rw [getD_setp_ne _ _ _ _ _ (by decide), h]
      simp
  have hres : api_result oracle (rest_order_call cfg now params) = .apiErr e := by
    simp [api_result, hfail]
  have hens2 := ensure_rest_order_params params hens
  have hmain : new_order cfg oracle now params
      = (if e.error_code = some (-4120) ∧ cfg.auto_switch_conditional_to_algo = true then
          (mark_algo (api_result oracle (algo_order_call cfg now (rest_order_params params))),
           [rest_order_call cfg now params, algo_order_call cfg now (rest_order_params params)])
        else (.apiErr e, [rest_order_call cfg now params])) := by
    simp only [new_order, hens, popD]
    rw [hcond]
    simp only [Bool.false_eq_true, if_false]
    rw [show (erase (setp params "type"
        (Value.vStr (normalize_order_type (getD params "type" Value.vNull))))
        "_force_rest_route") = rest_order_params params from rfl]
    rw [request_eq cfg oracle now _ _ _ hcreds]
    rw [show signed_call cfg now "POST" "/fapi/v1/order" (rest_order_params params)
        = rest_order_call cfg now params from rfl]
    rw [hres]
    dsimp only
    by_cases hc : e.error_code = some (-4120) ∧ cfg.auto_switch_conditional_to_algo = true
    · rw [if_pos hc, if_pos hc, new_algo_order_eq cfg oracle now _ hens2 hcreds]
      rfl
    · rw [if_neg hc, if_neg hc]
  constructor
  · intro hc
    rw [hmain, if_pos hc]
    exact ⟨(algo_order_call cfg now (rest_order_params params)).params, rfl⟩
  · intro hc
    rw [hmain, if_neg ?_]
    rcases hc with h | h
    · rintro ⟨h1, _⟩; exact h h1
    · rintro ⟨_, h2⟩; rw [h] at h2; exact Bool.false_ne_true h2

theorem c2_migration_error_fallback_witness :
    ((err4120.error_code = some (-4120) ∧ cfg0.auto_switch_conditional_to_algo = true) →
      ∃ ps, new_order cfg0 (oracle_fail_on "/fapi/v1/order" err4120) 1000 p_market
          = (mark_algo (api_result (oracle_fail_on "/fapi/v1/order" err4120)
              (Call.mk "POST" "/fapi/v1/algoOrder" ps)),
             [rest_order_call cfg0 1000 p_market, Call.mk "POST" "/fapi/v1/algoOrder" ps])) ∧
    ((err4120.error_code ≠ some (-4120) ∨ cfg0.auto_switch_conditional_to_algo = false) →
      new_order cfg0 (oracle_fail_on "/fapi/v1/order" err4120) 1000 p_market
        = (.apiErr err4120, [rest_order_call cfg0 1000 p_market])) :=
  c2_migration_error_fallback cfg0 (oracle_fail_on "/fapi/v1/order" err4120) 1000 p_market err4120
    (by decide) (by decide) (Or.inr (Or.inl (by decide))) (by decide)

theorem lookup?_prepare_ne (p : Params) (k : String)
    (h1 : k ≠ "quantity") (h2 : k ≠ "reduceOnly") :
    lookup? (prepare_algo_order_params p) k = lookup? p k := by
  unfold prepare_algo_order_params
  by_cases hcp : pyLower (pyStr (getD p "closePosition" (Value.vStr ""))) = "true"
  · rw [if_pos hcp, lookup?_erase_ne _ _ _ (Ne.symm h2), lookup?_erase_ne _ _ _ (Ne.symm h1)]
  · rw [if_neg hcp]

theorem getD_prepare_ne (p : Params) (k : String) (d : Value)
    (h1 : k ≠ "quantity") (h2 : k ≠ "reduceOnly") :
    getD (prepare_algo_order_params p) k d = getD p k d := by
  simp [getD, lookup?_prepare_ne p k h1 h2]

theorem lookup?_algo_call_type (cfg : ClientConfig) (now : Int) (p : Params) :
    lookup? (algo_order_call cfg now p).params "type"
      = some (Value.vStr (normalize_order_type (getD (prepare_algo_order_params p) "type" Value.vNull))) := by
  show lookup? (sign_params cfg now (clean_params (algo_wire_params p))) "type" = _
  apply lookup?_sign_of_lookup _ _ _ _ _ (by decide)
  apply lookup?_clean_of_ne_null _ _ _ (by simp)
  unfold algo_wire_params
  rw [lookup?_setp_ne _ _ _ _ (by decide)]
  exact lookup?_setp_self _ _ _

theorem new_fixed_type_order_snd (cfg : ClientConfig) (oracle : Oracle) (now : Int)
    (ft : String) (params : Params) :
    (new_fixed_type_order cfg oracle now ft params).2
      = (new_algo_order cfg oracle now
          (setp (prepare_algo_order_params params) "type" (Value.vStr ft))).2 := by
  unfold new_fixed_type_order
  cases h : (new_algo_order cfg oracle now
      (setp (prepare_algo_order_params params) "type" (Value.vStr ft))).1 with
  | ok j => cases j <;> simp [h]
  | apiErr e => simp [h]
  | valueErr m => simp [h]

theorem new_fixed_type_order_trace (cfg : ClientConfig) (oracle : Oracle) (now : Int)
    (ft : String) (params : Params)
    (hcreds : check_credentials cfg = none)
    (hsym : getD params "symbol" Value.vNull ≠ Value.vNull)
    (hside : getD params "side" Value.vNull ≠ Value.vNull) :
    ∃ ps, (new_fixed_type_order cfg oracle now ft params).2
        = [Call.mk "POST" "/fapi/v1/algoOrder" ps]
      ∧ getD ps "type" Value.vNull = Value.vStr (normalize_order_type (Value.vStr ft))
      ∧ getD ps "algoType" Value.vNull = Value.vStr "CONDITIONAL" := by
  have hens2 : ensure_required (setp (prepare_algo_order_params params) "type" (Value.vStr ft))
      ["symbol", "side", "type"] = none := by
    rw [ensure_required_eq_none_iff]
    intro f hf
    simp only [List.mem_cons, List.not_mem_nil, or_false] at hf
    rcases hf with rfl | rfl | rfl
    · rw [getD_setp_ne _ _ _ _ _ (by decide), getD_prepare_ne _ _ _ (by decide) (by decide)]
      exact hsym
    · rw [getD_setp_ne _ _ _ _ _ (by decide), getD_prepare_ne _ _ _ (by decide) (by decide)]
      exact hside
    · rw [getD_setp_self]
      simp
  refine ⟨(algo_order_call cfg now (setp (prepare_algo_order_params params) "type" (Value.vStr ft))).params,
    ?_, ?_, ?_⟩
  · rw [new_fixed_type_order_snd, new_algo_order_eq cfg oracle now _ hens2 hcreds]
    rfl
  · rw [getD, lookup?_algo_call_type]
    rw [getD_prepare_ne _ _ _ (by decide) (by decide), getD_setp_self]
    rfl
  · rw [getD, lookup?_algo_call_algoType]
    rfl

/-- C9: each of the dedicated helpers submits with its fixed order type —
`new_stop_loss_order` sends `type=STOP_MARKET`, `new_take_profit_order`
sends `type=TAKE_PROFIT_MARKET`, and `new_trailing_stop_order` sends
`type=TRAILING_STOP_MARKET` — on its single wire call to the conditional
endpoint, overriding any caller-supplied `type` value. -/
theorem c9_dedicated_methods_force_type (cfg : ClientConfig) (oracle : Oracle)
    (now : Int) (params : Params)
    (hcreds : check_credentials cfg = none)
    (hsp : ensure_required params ["symbol", "side", "stopPrice"] = none)
    (hcb : ensure_required params ["symbol", "side", "callbackRate"] = none) :
    (∃ ps, (new_stop_loss_order cfg oracle now params).2
        = [Call.mk "POST" "/fapi/v1/algoOrder" ps]
      ∧ getD ps "type" Value.vNull = Value.vStr "STOP_MARKET") ∧
    (∃ ps, (new_take_profit_order cfg oracle now params).2
        = [Call.mk "POST" "/fapi/v1/algoOrder" ps]
      ∧ getD ps "type" Value.vNull = Value.vStr "TAKE_PROFIT_MARKET") ∧
    (∃ ps, (new_trailing_stop_order cfg oracle now params).2
        = [Call.mk "POST" "/fapi/v1/algoOrder" ps]
      ∧ getD ps "type" Value.vNull = Value.vStr "TRAILING_STOP_MARKET") := by
  have hsym : getD params "symbol" Value.vNull ≠ Value.vNull :=
    (ensure_required_eq_none_iff _ _ |>.mp hsp) "symbol" (by simp)
  have hside : getD params "side" Value.vNull ≠ Value.vNull :=
    (ensure_required_eq_none_iff _ _ |>.mp hsp) "side" (by simp)
  refine ⟨?_, ?_, ?_⟩
  · obtain ⟨ps, htr, hty, _⟩ :=
      new_fixed_type_order_trace cfg oracle now "STOP_MARKET" params hcreds hsym hside
    refine ⟨ps, ?_, ?_⟩
    · simp only [new_stop_loss_order, hsp]
      exact htr
    · rw [hty]
      rfl
  · obtain ⟨ps, htr, hty, _⟩ :=
      new_fixed_type_order_trace cfg oracle now "TAKE_PROFIT_MARKET" params hcreds hsym hside
    refine ⟨ps, ?_, ?_⟩
    · simp only [new_take_profit_order, hsp]
      exact htr
    · rw [hty]
      rfl
  · obtain ⟨ps, htr, hty, _⟩ :=
      new_fixed_type_order_trace cfg oracle now "TRAILING_STOP_MARKET" params hcreds hsym hside
    refine ⟨ps, ?_, ?_⟩
    · simp only [new_trailing_stop_order, hcb]
      exact htr
    · rw [hty]
      rfl

theorem c9_dedicated_methods_force_type_witness :
    (∃ ps, (new_stop_loss_order cfg0 oracle_success 1000 p_guard).2
        = [Call.mk "POST" "/fapi/v1/algoOrder" ps]
      ∧ getD ps "type" Value.vNull = Value.vStr "STOP_MARKET") ∧
    (∃ ps, (new_take_profit_order cfg0 oracle_success 1000 p_guard).2
        = [Call.mk "POST" "/fapi/v1/algoOrder" ps]
      ∧ getD ps "type" Value.vNull = Value.vStr "TAKE_PROFIT_MARKET") ∧
    (∃ ps, (new_trailing_stop_order cfg0 oracle_success 1000 p_guard).2
        = [Call.mk "POST" "/fapi/v1/algoOrder" ps]
      ∧ getD ps "type" Value.vNull = Value.vStr "TRAILING_STOP_MARKET") :=
  c9_dedicated_methods_force_type cfg0 oracle_success 1000 p_guard
    (by decide) (by decide) (by decide)

/-- C7 counterexample: a successful regular-endpoint order result carries no
endpoint-family marker at all — `new_order` on a MARKET order returns the
backend body unchanged, with no `_via_algo_api` key — so it is not the case
that regular-endpoint results "get the marker". -/
theorem c7_counterexample :
    (new_order cfg0 oracle_success 1000 p_market).1
        = .ok (.dict [("orderId", Value.vInt 11111)]) ∧
    lookup? [("orderId", Value.vInt 11111)] "_via_algo_api" = none := by
  decide

/-- C7 (amended): only conditional-endpoint results carry the boolean marker:
every successful dict result of `new_algo_order` has `_via_algo_api = True`,
while a successful regular-endpoint submission returns the backend body
unchanged — no marker is added — so callers distinguish the two families by
the marker's presence, not by two distinct marker values. -/
theorem c7_marker_only_on_algo_results :
    (∀ (cfg : ClientConfig) (oracle : Oracle) (now : Int) (params p : Params)
        (tr : List Call),
      new_algo_order cfg oracle now params = (.ok (.dict p), tr) →
      getD p "_via_algo_api" Value.vNull = Value.vBool true) ∧
    (∀ (cfg : ClientConfig) (oracle : Oracle) (now : Int) (params b : Params),
      ensure_required params ["symbol", "side", "type"] = none →
      check_credentials cfg = none →
      (cfg.auto_switch_conditional_to_algo = false
        ∨ is_conditional_type (normalize_order_type (getD params "type" Value.vNull)) = false
        ∨ pyTruthy (getD params "_force_rest_route" Value.vNull) = true) →
      oracle (rest_order_call cfg now params) = .success (.dict b) →
      new_order cfg oracle now params = (.ok (.dict b), [rest_order_call cfg now params])) := by
  constructor
  · intro cfg oracle now params p tr h
    simp only [new_algo_order] at h
    cases hens : ensure_required params ["symbol", "side", "type"] with
    | some m => rw [hens] at h; simp at h
    | none =>
        rw [hens] at h
        cases hr : (request cfg oracle now "POST" "/fapi/v1/algoOrder"
            (algo_wire_params params)).1 with
        | ok j =>
            cases j with
            | dict p0 =>
                rw [show (setp (setp (prepare_algo_order_params params) "type"
                    (Value.vStr (normalize_order_type
                      (getD (prepare_algo_order_params params) "type" Value.vNull))))
                    "algoType" (Value.vStr "CONDITIONAL")) = algo_wire_params params from rfl,
                  hr] at h
                simp only [Prod.mk.injEq] at h
                obtain ⟨h1, _⟩ := h
                injection h1 with h1
                injection h1 with h1
                rw [← h1, getD_setp_self]
            | other s =>
                rw [show (setp (setp (prepare_algo_order_params params) "type"
                    (Value.vStr (normalize_order_type
                      (getD (prepare_algo_order_params params) "type" Value.vNull))))
                    "algoType" (Value.vStr "CONDITIONAL")) = algo_wire_params params from rfl,
                  hr] at h
                simp at h
        | apiErr e =>
            rw [show (setp (setp (prepare_algo_order_params params) "type"
                (Value.vStr (normalize_order_type
                  (getD (prepare_algo_order_params params) "type" Value.vNull))))
                "algoType" (Value.vStr "CONDITIONAL")) = algo_wire_params params from rfl,
              hr] at h
            simp at h
        | valueErr m =>
            rw [show (setp (setp (prepare_algo_order_params params) "type"
                (Value.vStr (normalize_order_type
                  (getD (prepare_algo_order_params params) "type" Value.vNull))))
                "algoType" (Value.vStr "CONDITIONAL")) = algo_wire_params params from rfl,
              hr] at h
            simp at h
  · intro cfg oracle now params b hens hcreds hroute hok
    have hcond : (cfg.auto_switch_conditional_to_algo
        && is_conditional_type (normalize_order_type (getD params "type" Value.vNull))
        && !pyTruthy (getD (setp params "type"
            (Value.vStr (normalize_order_type (getD params "type" Value.vNull))))
            "_force_rest_route" Value.vNull)) = false := by
      rcases hroute with h | h | h
      · simp [h]
      · simp [h]
      · rw [getD_setp_ne _ _ _ _ _ (by decide), h]
        simp
    have hres : api_result oracle (rest_order_call cfg now params) = .ok (.dict b) := by
      simp [api_result, hok]
    simp only [new_order, hens, popD]
    rw [hcond]
    simp only [Bool.false_eq_true, if_false]
    rw [show (erase (setp params "type"
        (Value.vStr (normalize_order_type (getD params "type" Value.vNull))))
        "_force_rest_route") = rest_order_params params from rfl]
    rw [request_eq cfg oracle now _ _ _ hcreds]
    rw [show signed_call cfg now "POST" "/fapi/v1/order" (rest_order_params params)
        = rest_order_call cfg now params from rfl]
    rw [hres]

theorem c7_marker_only_on_algo_results_witness :
    getD [("orderId", Value.vInt 11111), ("_via_algo_api", Value.vBool true)]
        "_via_algo_api" Value.vNull = Value.vBool true ∧
    new_order cfg0 oracle_success 1000 p_market
      = (.ok (.dict [("orderId", Value.vInt 11111)]), [rest_order_call cfg0 1000 p_market]) :=
  ⟨c7_marker_only_on_algo_results.1 cfg0 oracle_success 1000 p_cond
      [("orderId", Value.vInt 11111), ("_via_algo_api", Value.vBool true)]
      (new_algo_order cfg0 oracle_success 1000 p_cond).2 (by decide),
   c7_marker_only_on_algo_results.2 cfg0 oracle_success 1000 p_market
      [("orderId", Value.vInt 11111)]
      (by decide) (by decide) (Or.inr (Or.inl (by decide))) (by decide)⟩

theorem request_path (cfg : ClientConfig) (oracle : Oracle) (now : Int)
    (method path : String) (p : Params) :
    ∀ c ∈ (request cfg oracle now method path p).2, c.path = path := by
  unfold request
  cases hc : check_credentials cfg with
  | some m => simp
  | none =>
      dsimp only
      cases ho : oracle (signed_call cfg now method path p) <;> simp [ho, signed_call]

/-- C10 counterexample: a `query_order` call supplying `algoId = 0` — a falsy
value — routes directly to the conditional endpoint (its only wire call is a
GET of `/fapi/v1/algoOrder`), so a falsy conditional identifier is not
treated as absent. -/
theorem c10_counterexample :
    ((query_order cfg0 oracle_success 1000 none
        [("symbol", Value.vStr "BTCUSDT"), ("algoId", Value.vInt 0)]).2.map Call.path)
      = ["/fapi/v1/algoOrder"] := by
  decide

/-- C10 (amended): the truthiness filter applies to `algoOrderId` only — when
`algoOrderId` is falsy and `algoId` is absent or `None`, the conditional
identifier is treated as absent and neither `query_order` nor `cancel_order`
ever touches the conditional endpoint, even with fallback enabled; but a
present non-`None` `algoId` is tested for presence only, so a falsy value
such as `0` or `""` is treated as a real identifier and routes directly to
the conditional endpoint when no regular identifier is truthy. -/
theorem c10_algo_id_presence_not_truthiness :
    (∀ (cfg : ClientConfig) (oracle : Oracle) (now : Int) (allow : Option Bool)
        (params : Params),
      pyTruthy (getD params "algoOrderId" Value.vNull) = false →
      getD params "algoId" Value.vNull = Value.vNull →
      (∀ c ∈ (query_order cfg oracle now allow params).2, c.path ≠ "/fapi/v1/algoOrder") ∧
      (∀ c ∈ (cancel_order cfg oracle now allow params).2, c.path ≠ "/fapi/v1/algoOrder")) ∧
    (∀ (cfg : ClientConfig) (oracle : Oracle) (now : Int) (allow : Option Bool)
        (params : Params) (w : Value),
      check_credentials cfg = none →
      pyTruthy (getD params "algoOrderId" Value.vNull) = false →
      lookup? params "algoId" = some w → w ≠ Value.vNull →
      pyTruthy (getD params "orderId" Value.vNull) = false →
      pyTruthy (getD params "origClientOrderId" Value.vNull) = false →
      ∃ ps, (query_order cfg oracle now allow params).2
          = [Call.mk "GET" "/fapi/v1/algoOrder" ps]
        ∧ lookup? ps "algoId" = some w) := by
  constructor
  · intro cfg oracle now allow params h1 h2
    have hex : extract_algo_id params
        = (Value.vNull, erase (erase params "algoOrderId") "algoId") := by
      simp only [extract_algo_id, popD, h1, Bool.false_eq_true, if_false]
      rw [getD_erase_ne _ _ _ _ (by decide), h2]
    constructor
    · simp only [query_order, hex]
      rw [if_neg (fun hpref => hpref.1 rfl)]
      cases hens : ensure_required (erase (erase params "algoOrderId") "algoId") ["symbol"] with
      | some m => simp
      | none =>
          cases hr : (request cfg oracle now "GET" "/fapi/v1/order"
              (erase (erase params "algoOrderId") "algoId")).1 with
          | ok j =>
              dsimp only
              intro c hc
              have hp := request_path cfg oracle now "GET" "/fapi/v1/order" _ c hc
              rw [hp]; decide
          | apiErr e =>
              dsimp only
              rw [if_neg (fun hcnd => hcnd.2.1 rfl)]
              intro c hc
              have hp := request_path cfg oracle now "GET" "/fapi/v1/order" _ c hc
              rw [hp]; decide
          | valueErr m =>
              dsimp only
              intro c hc
              have hp := request_path cfg oracle now "GET" "/fapi/v1/order" _ c hc
              rw [hp]; decide
    · simp only [cancel_order, hex]
      rw [if_neg (fun hpref => hpref.1 rfl)]
      cases hens : ensure_required (erase (erase params "algoOrderId") "algoId") ["symbol"] with
      | some m => simp
      | none =>
          cases hr : (request cfg oracle now "DELETE" "/fapi/v1/order"
              (erase (erase params "algoOrderId") "algoId")).1 with
          | ok j =>
              dsimp only
              intro c hc
              have hp := request_path cfg oracle now "DELETE" "/fapi/v1/order" _ c hc
              rw [hp]; decide
          | apiErr e =>
              dsimp only
              rw [if_neg (fun hcnd => hcnd.2.1 rfl)]
              intro c hc
              have hp := request_path cfg oracle now "DELETE" "/fapi/v1/order" _ c hc
              rw [hp]; decide
          | valueErr m =>
              dsimp only
              intro c hc
              have hp := request_path cfg oracle now "DELETE" "/fapi/v1/order" _ c hc
              rw [hp]; decide
  · intro cfg oracle now allow params w hcreds h1 hw hwn ho horig
    have hgw : getD (erase params "algoOrderId") "algoId" Value.vNull = w := by
      rw [getD_erase_ne _ _ _ _ (by decide)]
      simp [getD, hw]
    have hex : extract_algo_id params = (w, erase (erase params "algoOrderId") "algoId") := by
      simp only [extract_algo_id, popD, h1, Bool.false_eq_true, if_false, hgw]
    have hpref : w ≠ Value.vNull
        ∧ ¬ pyTruthy (getD (erase (erase params "algoOrderId") "algoId") "orderId" Value.vNull)
        ∧ ¬ pyTruthy (getD (erase (erase params "algoOrderId") "algoId") "origClientOrderId" Value.vNull) := by
      refine ⟨hwn, ?_, ?_⟩
      · rw [getD_erase_ne _ _ _ _ (by decide), getD_erase_ne _ _ _ _ (by decide), ho]
        simp
      · rw [getD_erase_ne _ _ _ _ (by decide), getD_erase_ne _ _ _ _ (by decide), horig]
        simp
    have hens : ensure_required [("algoId", w),
        ("symbol", getD (erase (erase params "algoOrderId") "algoId") "symbol" Value.vNull)]
        ["algoId"] = none := by
      rw [ensure_required_eq_none_iff]
      intro f hf
      simp only [List.mem_cons, List.not_mem_nil, or_false] at hf
      subst hf
      simpa [getD] using hwn
    refine ⟨sign_params cfg now (clean_params [("algoId", w),
        ("symbol", getD (erase (erase params "algoOrderId") "algoId") "symbol" Value.vNull)]), ?_, ?_⟩
    · simp only [query_order, hex]
      rw [if_pos hpref]
      simp only [query_algo_order, hens]
      rw [request_eq cfg oracle now _ _ _ hcreds]
      rfl
    · apply lookup?_sign_of_lookup _ _ _ _ _ (by decide)
      apply lookup?_clean_of_ne_null _ _ _ hwn
      simp

theorem c10_algo_id_presence_not_truthiness_witness :
    ((∀ c ∈ (query_order cfg0 (oracle_fail_on "/fapi/v1/order" err2013) 1000 (some true)
        [("symbol", Value.vStr "BTCUSDT"), ("algoOrderId", Value.vInt 0)]).2,
        c.path ≠ "/fapi/v1/algoOrder") ∧
     (∀ c ∈ (cancel_order cfg0 (oracle_fail_on "/fapi/v1/order" err2013) 1000 (some true)
        [("symbol", Value.vStr "BTCUSDT"), ("algoOrderId", Value.vInt 0)]).2,
        c.path ≠ "/fapi/v1/algoOrder")) ∧
    (∃ ps, (query_order cfg0 oracle_success 1000 none
        [("symbol", Value.vStr "BTCUSDT"), ("algoId", Value.vStr "")]).2
        = [Call.mk "GET" "/fapi/v1/algoOrder" ps]
      ∧ lookup? ps "algoId" = some (Value.vStr "")) :=
  ⟨c10_algo_id_presence_not_truthiness.1 cfg0 (oracle_fail_on "/fapi/v1/order" err2013) 1000
      (some true) [("symbol", Value.vStr "BTCUSDT"), ("algoOrderId", Value.vInt 0)]
      (by decide) (by decide),
   c10_algo_id_presence_not_truthiness.2 cfg0 oracle_success 1000 none
      [("symbol", Value.vStr "BTCUSDT"), ("algoId", Value.vStr "")] (Value.vStr "")
      (by decide) (by decide) (by decide) (by decide) (by decide) (by decide)⟩

/-- C5: for every `cancel_order` / `query_order` call supplying both a truthy
regular identifier (`orderId`) and a truthy conditional identifier
(`algoOrderId`), the regular endpoint is attempted first; when that attempt
fails with an error in the not-found class (code in `{-2013, -2011}` or
HTTP 404) and fallback is enabled (per-call flag, else the client's
`attempt_algo_on_not_found`), exactly one subsequent call goes to the
conditional endpoint carrying the supplied conditional identifier as
`algoId`; any other error, or the same error with fallback disabled,
propagates unchanged after the single regular attempt. -/
theorem c5_not_found_fallback (cfg : ClientConfig) (oracle : Oracle) (now : Int)
    (allow : Option Bool) (params : Params) (e : ApiError)
    (hcreds : check_credentials cfg = none)
    (hsym : getD params "symbol" Value.vNull ≠ Value.vNull)
    (halgo : pyTruthy (getD params "algoOrderId" Value.vNull) = true)
    (hreg : pyTruthy (getD params "orderId" Value.vNull) = true)
    (hfailc : oracle (signed_call cfg now "DELETE" "/fapi/v1/order"
        (erase params "algoOrderId")) = .failure e)
    (hfailq : oracle (signed_call cfg now "GET" "/fapi/v1/order"
        (erase params "algoOrderId")) = .failure e) :
    ((allow.getD cfg.attempt_algo_on_not_found = true ∧ is_order_not_found e = true) →
      (∃ ps, cancel_order cfg oracle now allow params
          = (api_result oracle (Call.mk "DELETE" "/fapi/v1/algoOrder" ps),
             [signed_call cfg now "DELETE" "/fapi/v1/order" (erase params "algoOrderId"),
              Call.mk "DELETE" "/fapi/v1/algoOrder" ps])
        ∧ lookup? ps "algoId" = some (getD params "algoOrderId" Value.vNull)) ∧
      (∃ ps, query_order cfg oracle now allow params
          = (api_result oracle (Call.mk "GET" "/fapi/v1/algoOrder" ps),
             [signed_call cfg now "GET" "/fapi/v1/order" (erase params "algoOrderId"),
              Call.mk "GET" "/fapi/v1/algoOrder" ps])
        ∧ lookup? ps "algoId" = some (getD params "algoOrderId" Value.vNull))) ∧
    ((allow.getD cfg.attempt_algo_on_not_found = false ∨ is_order_not_found e = false) →
      cancel_order cfg oracle now allow params
          = (.apiErr e, [signed_call cfg now "DELETE" "/fapi/v1/order" (erase params "algoOrderId")])
        ∧ query_order cfg oracle now allow params
          = (.apiErr e, [signed_call cfg now "GET" "/fapi/v1/order" (erase params "algoOrderId")])) := by
  have hane : getD params "algoOrderId" Value.vNull ≠ Value.vNull :=
    ne_vNull_of_pyTruthy halgo
  have hex : extract_algo_id params
      = (getD params "algoOrderId" Value.vNull, erase params "algoOrderId") := by
    unfold extract_algo_id popD
    dsimp only
    rw [halgo]
    simp
  have hprefneg : ¬ (getD params "algoOrderId" Value.vNull ≠ Value.vNull
      ∧ ¬ pyTruthy (getD (erase params "algoOrderId") "orderId" Value.vNull) = true
      ∧ ¬ pyTruthy (getD (erase params "algoOrderId") "origClientOrderId" Value.vNull) = true) := by
    rintro ⟨_, hno, _⟩
    apply hno
    rw [getD_erase_ne _ _ _ _ (by decide)]
    exact hreg
  have hens1 : ensure_required (erase params "algoOrderId") ["symbol"] = none := by
    rw [ensure_required_eq_none_iff]
    intro f hf
    simp only [List.mem_cons, List.not_mem_nil, or_false] at hf
    subst hf
    rw [getD_erase_ne _ _ _ _ (by decide)]
    exact hsym
  have hsym1 : getD (erase params "algoOrderId") "symbol" Value.vNull ≠ Value.vNull := by
    rw [getD_erase_ne _ _ _ _ (by decide)]
    exact hsym
  have hensfbc : ensure_required
      [("symbol", getD (erase params "algoOrderId") "symbol" Value.vNull),
       ("algoId", getD params "algoOrderId" Value.vNull)] ["symbol", "algoId"] = none := by
    rw [ensure_required_eq_none_iff]
    intro f hf
    simp only [List.mem_cons, List.not_mem_nil, or_false] at hf
    rcases hf with rfl | rfl
    · simpa [getD] using hsym1
    · simpa [getD] using hane
  have hensfbq : ensure_required
      [("algoId", getD params "algoOrderId" Value.vNull),
       ("symbol", getD (erase params "algoOrderId") "symbol" Value.vNull)] ["algoId"] = none := by
    rw [ensure_required_eq_none_iff]
    intro f hf
    simp only [List.mem_cons, List.not_mem_nil, or_false] at hf
    subst hf
    simpa [getD] using hane
  have hresc : api_result oracle (signed_call cfg now "DELETE" "/fapi/v1/order"
      (erase params "algoOrderId")) = .apiErr e := by
    simp [api_result, hfailc]
  have hresq : api_result oracle (signed_call cfg now "GET" "/fapi/v1/order"
      (erase params "algoOrderId")) = .apiErr e := by
    simp [api_result, hfailq]
  have hcancel : cancel_order cfg oracle now allow params
      = (if allow.getD cfg.attempt_algo_on_not_found = true
            ∧ getD params "algoOrderId" Value.vNull ≠ Value.vNull
            ∧ is_order_not_found e = true then
          (api_result oracle (signed_call cfg now "DELETE" "/fapi/v1/algoOrder"
              [("symbol", getD (erase params "algoOrderId") "symbol" Value.vNull),
               ("algoId", getD params "algoOrderId" Value.vNull)]),
           [signed_call cfg now "DELETE" "/fapi/v1/order" (erase params "algoOrderId"),
            signed_call cfg now "DELETE" "/fapi/v1/algoOrder"
              [("symbol", getD (erase params "algoOrderId") "symbol" Value.vNull),
               ("algoId", getD params "algoOrderId" Value.vNull)]])
        else (.apiErr e,
          [signed_call cfg now "DELETE" "/fapi/v1/order" (erase params "algoOrderId")])) := by
    simp only [cancel_order, hex]
    rw [if_neg hprefneg]
    simp only [hens1]
    rw [request_eq cfg oracle now _ _ _ hcreds]
    dsimp only
    rw [hresc]
    dsimp only
    by_cases hc : allow.getD cfg.attempt_algo_on_not_found = true
        ∧ getD params "algoOrderId" Value.vNull ≠ Value.vNull
        ∧ is_order_not_found e = true
    · rw [if_pos hc, if_pos hc]
      simp only [cancel_algo_order, hensfbc]
      rw [request_eq cfg oracle now _ _ _ hcreds]
      rfl
    · rw [if_neg hc, if_neg hc]
  have hquery : query_order cfg oracle now allow params
      = (if allow.getD cfg.attempt_algo_on_not_found = true
            ∧ getD params "algoOrderId" Value.vNull ≠ Value.vNull
            ∧ is_order_not_found e = true then
          (api_result oracle (signed_call cfg now "GET" "/fapi/v1/algoOrder"
              [("algoId", getD params "algoOrderId" Value.vNull),
               ("symbol", getD (erase params "algoOrderId") "symbol" Value.vNull)]),
           [signed_call cfg now "GET" "/fapi/v1/order" (erase params "algoOrderId"),
            signed_call cfg now "GET" "/fapi/v1/algoOrder"
              [("algoId", getD params "algoOrderId" Value.vNull),
               ("symbol", getD (erase params "algoOrderId") "symbol" Value.vNull)]])
        else (.apiErr e,
          [signed_call cfg now "GET" "/fapi/v1/order" (erase params "algoOrderId")])) := by
    simp only [query_order, hex]
    rw [if_neg hprefneg]
    simp only [hens1]
    rw [request_eq cfg oracle now _ _ _ hcreds]
    dsimp only
    rw [hresq]
    dsimp only
    by_cases hc : allow.getD cfg.attempt_algo_on_not_found = true
        ∧ getD params "algoOrderId" Value.vNull ≠ Value.vNull
        ∧ is_order_not_found e = true
    · rw [if_pos hc, if_pos hc]
      simp only [query_algo_order, hensfbq]
      rw [request_eq cfg oracle now _ _ _ hcreds]
      rfl
    · rw [if_neg hc, if_neg hc]
  constructor
  · rintro ⟨hfb, hnf⟩
    constructor
    · refine ⟨sign_params cfg now (clean_params
          [("symbol", getD (erase params "algoOrderId") "symbol" Value.vNull),
           ("algoId", getD params "algoOrderId" Value.vNull)]), ?_, ?_⟩
      · rw [hcancel, if_pos ⟨hfb, hane, hnf⟩]
        rfl
      · apply lookup?_sign_of_lookup _ _ _ _ _ (by decide)
        apply lookup?_clean_of_ne_null _ _ _ hane
        simp
    · refine ⟨sign_params cfg now (clean_params
          [("algoId", getD params "algoOrderId" Value.vNull),
           ("symbol", getD (erase params "algoOrderId") "symbol" Value.vNull)]), ?_, ?_⟩
      · rw [hquery, if_pos ⟨hfb, hane, hnf⟩]
        rfl
      · apply lookup?_sign_of_lookup _ _ _ _ _ (by decide)
        apply lookup?_clean_of_ne_null _ _ _ hane
        simp
  · intro hoff
    have hneg : ¬ (allow.getD cfg.attempt_algo_on_not_found = true
        ∧ getD params "algoOrderId" Value.vNull ≠ Value.vNull
        ∧ is_order_not_found e = true) := by
      rintro ⟨hfb, _, hnf⟩
      rcases hoff with h | h
      · rw [h] at hfb
        exact Bool.false_ne_true hfb
      · rw [h] at hnf
        exact Bool.false_ne_true hnf
    constructor
    · rw [hcancel, if_neg hneg]
    · rw [hquery, if_neg hneg]

theorem c5_not_found_fallback_witness :
    (((some true).getD cfg0.attempt_algo_on_not_found = true ∧ is_order_not_found err2013 = true) →
      (∃ ps, cancel_order cfg0 (oracle_fail_on "/fapi/v1/order" err2013) 1000 (some true) p_both_ids
          = (api_result (oracle_fail_on "/fapi/v1/order" err2013) (Call.mk "DELETE" "/fapi/v1/algoOrder" ps),
             [signed_call cfg0 1000 "DELETE" "/fapi/v1/order" (erase p_both_ids "algoOrderId"),
              Call.mk "DELETE" "/fapi/v1/algoOrder" ps])
        ∧ lookup? ps "algoId" = some (getD p_both_ids "algoOrderId" Value.vNull)) ∧
      (∃ ps, query_order cfg0 (oracle_fail_on "/fapi/v1/order" err2013) 1000 (some true) p_both_ids
          = (api_result (oracle_fail_on "/fapi/v1/order" err2013) (Call.mk "GET" "/fapi/v1/algoOrder" ps),
             [signed_call cfg0 1000 "GET" "/fapi/v1/order" (erase p_both_ids "algoOrderId"),
              Call.mk "GET" "/fapi/v1/algoOrder" ps])
        ∧ lookup? ps "algoId" = some (getD p_both_ids "algoOrderId" Value.vNull))) ∧
    (((some true).getD cfg0.attempt_algo_on_not_found = false ∨ is_order_not_found err2013 = false) →
      cancel_order cfg0 (oracle_fail_on "/fapi/v1/order" err2013) 1000 (some true) p_both_ids
          = (.apiErr err2013, [signed_call cfg0 1000 "DELETE" "/fapi/v1/order" (erase p_both_ids "algoOrderId")])
        ∧ query_order cfg0 (oracle_fail_on "/fapi/v1/order" err2013) 1000 (some true) p_both_ids
          = (.apiErr err2013, [signed_call cfg0 1000 "GET" "/fapi/v1/order" (erase p_both_ids "algoOrderId")])) :=
  c5_not_found_fallback cfg0 (oracle_fail_on "/fapi/v1/order" err2013) 1000 (some true) p_both_ids err2013
    (by decide) (by decide) (by decide) (by decide) (by decide) (by decide)

theorem exists_lookup_of_getD_ne_null (p : Params) (k : String)
    (h : getD p k Value.vNull ≠ Value.vNull) :
    ∃ v, lookup? p k = some v ∧ v ≠ Value.vNull := by
  unfold getD at h
  cases hl : lookup? p k with
  | none => rw [hl] at h; simp at h
  | some v => rw [hl] at h; exact ⟨v, rfl, by simpa using h⟩

theorem ensure_required_merge (a b : Params) (fs : List String)
    (h : ensure_required b fs = none) :
    ensure_required (merge a b) fs = none := by
  rw [ensure_required_eq_none_iff] at h ⊢
  intro f hf
  obtain ⟨v, hv, hvn⟩ := exists_lookup_of_getD_ne_null _ _ (h f hf)
  rw [getD, lookup?_merge, hv]
  simpa using hvn

theorem ensure_required_setp_type (o : Params) (s : String)
    (h : ensure_required o ["symbol", "side", "type"] = none) :
    ensure_required (setp o "type" (Value.vStr s)) ["symbol", "side", "type"] = none := by
  rw [ensure_required_eq_none_iff] at h ⊢
  intro f hf
  simp only [List.mem_cons, List.not_mem_nil, or_false] at hf
  rcases hf with rfl | rfl | rfl
  · rw [getD_setp_ne _ _ _ _ _ (by decide)]
    exact h "symbol" (by simp)
  · rw [getD_setp_ne _ _ _ _ _ (by decide)]
    exact h "side" (by simp)
  · rw [getD_setp_self]
    simp

theorem classify_orders_conds_ensure (orders : List Params) (conds regs : List Params)
    (h : classify_orders orders = .ok (conds, regs)) :
    ∀ o ∈ conds, ensure_required o ["symbol", "side", "type"] = none := by
  induction orders generalizing conds regs with
  | nil =>
      unfold classify_orders at h
      injection h with h
      cases h
      intro o ho
      simp at ho
  | cons o rest ih =>
      unfold classify_orders at h
      cases hens : ensure_required o ["symbol", "side", "type"] with
      | some m => rw [hens] at h; simp at h
      | none =>
          rw [hens] at h
          dsimp only at h
          cases hrec : classify_orders rest with
          | error m => rw [hrec] at h; simp at h
          | ok pr =>
              obtain ⟨c, r⟩ := pr
              rw [hrec] at h
              dsimp only at h
              by_cases hcnd : is_conditional_type (pyStr (getD (setp o "type"
                  (Value.vStr (normalize_order_type (getD o "type" Value.vNull))))
                  "type" Value.vNull)) = true
              · rw [if_pos hcnd] at h
                injection h with h
                cases h
                intro o' ho'
                rcases List.mem_cons.mp ho' with rfl | ho'
                · exact ensure_required_setp_type o _ hens
                · exact ih _ _ hrec o' ho'
              · rw [if_neg hcnd] at h
                injection h with h
                cases h
                intro o' ho'
                exact ih _ _ hrec o' ho'

theorem algo_ok_body_eq (cfg : ClientConfig) (oracle : Oracle) (now : Int)
    (p : Params) (j : JsonVal)
    (hj : oracle (algo_order_call cfg now p) = .success j) :
    PyResult.ok (algo_ok_body cfg oracle now p)
      = mark_algo (api_result oracle (algo_order_call cfg now p)) := by
  cases j <;> simp [algo_ok_body, api_result, mark_algo, hj]

theorem run_conditional_orders_success (cfg : ClientConfig) (oracle : Oracle) (now : Int)
    (shared : Params) (conds : List Params)
    (hcreds : check_credentials cfg = none)
    (hsucc : ∀ c, ∃ j, oracle c = .success j)
    (hfields : ∀ o ∈ conds, ensure_required (merge shared o) ["symbol", "side", "type"] = none) :
    run_conditional_orders cfg oracle now shared conds
      = (.ok (conds.map (fun o => algo_ok_body cfg oracle now (merge shared o))),
         conds.map (fun o => algo_order_call cfg now (merge shared o))) := by
  induction conds with
  | nil => rfl
  | cons o rest ih =>
      have h1 := hfields o (by simp)
      obtain ⟨j, hj⟩ := hsucc (algo_order_call cfg now (merge shared o))
      unfold run_conditional_orders
      rw [new_algo_order_eq cfg oracle now _ h1 hcreds,
        ← algo_ok_body_eq cfg oracle now (merge shared o) j hj,
        ih (fun o' ho' => hfields o' (by simp [ho']))]
      rfl

/-- C4: for every non-empty batch whose classification partitions into
`conds` (conditional) and `regs` (regular): with auto-splitting disabled and
any conditional order present, the whole batch fails with a validation error
before any network call; with auto-splitting enabled (under an
all-successful backend), the wire trace is exactly one batch call to
`/fapi/v1/batchOrders` carrying the regular orders (none when there are no
regular orders) followed by exactly one individual conditional call per
conditional order, and the conditional results are collected in input
order. -/
theorem c4_batch_split_or_fail_fast (cfg : ClientConfig) (oracle : Oracle) (now : Int)
    (orders : List Params) (auto_split_conditional : Bool) (shared : Params)
    (conds regs : List Params)
    (horders : orders ≠ [])
    (hclass : classify_orders orders = .ok (conds, regs))
    (hcreds : check_credentials cfg = none) :
    ((conds ≠ [] ∧ auto_split_conditional = false) →
      new_batch_orders cfg oracle now orders auto_split_conditional shared
        = (.valueErr "Batch contains conditional order types. Route them via the Algo endpoint or enable auto_split_conditional.",
           [])) ∧
    (auto_split_conditional = true → (∀ c, ∃ j, oracle c = .success j) →
      ∃ reg, new_batch_orders cfg oracle now orders auto_split_conditional shared
        = (.ok ⟨reg, conds.map (fun o => algo_ok_body cfg oracle now (merge (clean_params shared) o))⟩,
           (if regs = [] then [] else [batch_call cfg now regs shared])
             ++ conds.map (fun o => algo_order_call cfg now (merge (clean_params shared) o)))) := by
  constructor
  · rintro ⟨hc, ha⟩
    simp only [new_batch_orders]
    rw [if_neg horders]
    simp only [hclass]
    rw [if_pos ⟨hc, by rw [ha]; exact Bool.false_ne_true⟩]
  · intro ha hsucc
    subst ha
    have hfields : ∀ o ∈ conds,
        ensure_required (merge (clean_params shared) o) ["symbol", "side", "type"] = none :=
      fun o ho => ensure_required_merge _ _ _
        (classify_orders_conds_ensure orders conds regs hclass o ho)
    simp only [new_batch_orders]
    rw [if_neg horders]
    simp only [hclass]
    rw [if_neg (fun hcnd => hcnd.2 (by trivial))]
    by_cases hr : regs = []
    · rw [if_pos hr]
      dsimp only
      rw [run_conditional_orders_success cfg oracle now _ conds hcreds hsucc hfields]
      refine ⟨none, ?_⟩
      rw [if_pos hr]
    · rw [if_neg hr]
      rw [request_eq cfg oracle now _ _ _ hcreds]
      rw [show signed_call cfg now "POST" "/fapi/v1/batchOrders"
          (merge [("batchOrders", Value.vStr (dumps_list regs))] (clean_params shared))
          = batch_call cfg now regs shared from rfl]
      obtain ⟨jb, hjb⟩ := hsucc (batch_call cfg now regs shared)
      have hb : api_result oracle (batch_call cfg now regs shared) = .ok jb := by
        simp [api_result, hjb]
      rw [hb]
      dsimp only
      rw [run_conditional_orders_success cfg oracle now _ conds hcreds hsucc hfields]
      refine ⟨some jb, ?_⟩
      rw [if_neg hr]

theorem c4_batch_split_or_fail_fast_witness :
    ((([setp p_cond "type" (Value.vStr "STOP_MARKET")] : List Params) ≠ [] ∧ false = false) →
      new_batch_orders cfg0 oracle_success 1000 [p_market, p_cond] false []
        = (.valueErr "Batch contains conditional order types. Route them via the Algo endpoint or enable auto_split_conditional.",
           [])) ∧
    (true = true → (∀ c, ∃ j, oracle_success c = .success j) →
      ∃ reg, new_batch_orders cfg0 oracle_success 1000 [p_market, p_cond] true []
        = (.ok ⟨reg, ([setp p_cond "type" (Value.vStr "STOP_MARKET")] : List Params).map
              (fun o => algo_ok_body cfg0 oracle_success 1000 (merge (clean_params []) o))⟩,
           (if ([setp p_market "type" (Value.vStr "MARKET")] : List Params) = []
              then [] else [batch_call cfg0 1000 [setp p_market "type" (Value.vStr "MARKET")] []])
             ++ ([setp p_cond "type" (Value.vStr "STOP_MARKET")] : List Params).map
                  (fun o => algo_order_call cfg0 1000 (merge (clean_params []) o)))) := by
  have h := c4_batch_split_or_fail_fast cfg0 oracle_success 1000 [p_market, p_cond] false []
    [setp p_cond "type" (Value.vStr "STOP_MARKET")] [setp p_market "type" (Value.vStr "MARKET")]
    (by decide) (by rfl) (by decide)
  have h2 := c4_batch_split_or_fail_fast cfg0 oracle_success 1000 [p_market, p_cond] true []
    [setp p_cond "type" (Value.vStr "STOP_MARKET")] [setp p_market "type" (Value.vStr "MARKET")]
    (by decide) (by rfl) (by decide)
  exact ⟨h.1, h2.2⟩

end BinanceFutures
